import Mathlib

/-!
Shallow embedding of the CSS selector builder of src/06-objects-tasks.js
(class MyCssSelector, helper checkOrder, facade cssSelectorBuilder).

Fragments are plain strings; the chain is the ordered list of fragments.
JavaScript string tests are embedded as follows:
  s.includes(c)  for a single character c      -> charMem c s.data
  s.match(/[.:#]/)                             -> a charMem disjunction
  s[0] === ch , s[1] !== ch                    -> List.get? on s.data
  s.includes("::") , s.match(/::.*"/)          -> hasDoubleColon s.data
  arr.indexOf(x)                               -> jsIndexOf arr x
  arr.join(sep)                                -> joinSep sep arr
Errors are modelled with Except String carrying the exact thrown message:
the message of the spec name OrderError is orderErrorMsg, the message of
the spec name DuplicateOrMisplacedError is duplicateErrorMsg.
-/

namespace CoreJs101

def orderErrorMsg : String :=
  "Selector parts should be arranged in the following order: element, id, class, attribute, pseudo-class, pseudo-element"

def duplicateErrorMsg : String :=
  "Element, id and pseudo-element should not occur more then one time inside the selector"

/-- Membership of a character in a character list (JS s.includes of a one-character string). -/
def charMem (c : Char) : List Char → Bool
  | [] => false
  | a :: t => (a == c) || charMem c t

/-- JS s.includes of a one-character needle. -/
def jsIncludes (s : String) (c : Char) : Bool := charMem c s.data

/-- Whether the character list contains two adjacent colons
(JS s.includes of a two-colon needle, and the regex of two colons followed by anything). -/
def hasDoubleColon : List Char → Bool
  | [] => false
  | [_] => false
  | a :: b :: t => ((a == ':') && (b == ':')) || hasDoubleColon (b :: t)

/-- JS test arr[i][0] === a colon and arr[i][1] !== a colon
(an out-of-range index reads undefined, which compares unequal to any character). -/
def startsSingleColon (s : String) : Bool :=
  decide (s.data.head? = some ':') && !decide (s.data.get? 1 = some ':')

/-- checkOrder classification: the fragment contains a hash character. -/
def isIdFragB (s : String) : Bool := jsIncludes s '#'

/-- checkOrder classification: the fragment contains none of dot, colon, hash
(JS: no match of the character class of those three). -/
def isElemFragB (s : String) : Bool :=
  !(jsIncludes s '.' || jsIncludes s ':' || jsIncludes s '#')

/-- checkOrder classification: the fragment contains a dot. -/
def isClassFragB (s : String) : Bool := jsIncludes s '.'

/-- checkOrder classification: the fragment contains an opening square bracket. -/
def isAttrFragB (s : String) : Bool := jsIncludes s '['

/-- checkOrder classification: first character is a colon, second is not. -/
def isPseudoClassFragB (s : String) : Bool := startsSingleColon s

/-- checkOrder classification: the fragment contains two adjacent colons. -/
def isPseudoElemFragB (s : String) : Bool := hasDoubleColon s.data

/-- JS Array.prototype.indexOf: index of the first occurrence of the value.
Only ever applied to members of the array, so the not-found answer is irrelevant. -/
def jsIndexOf : List String → String → Nat
  | [], _ => 0
  | a :: t, s => if a = s then 0 else jsIndexOf t s + 1

/-- The index list one category accumulates inside checkOrder: the loop pushes
arr.indexOf(arr[i]) for every i whose fragment satisfies the category test, in order. -/
def catIndexes (arr : List String) (P : String → Bool) : List Nat :=
  (arr.filter P).map (fun s => jsIndexOf arr s)

/-- JS comparison a < b on two possibly-undefined numbers: any comparison with
undefined is false. -/
def optLt : Option Nat → Option Nat → Bool
  | some a, some b => decide (a < b)
  | _, _ => false

/-- The throw condition of checkOrder: the nine comparisons of the source, each on
the first element of two category index lists. -/
def checkOrderFails (arr : List String) : Bool :=
  optLt (catIndexes arr isAttrFragB).head? (catIndexes arr isClassFragB).head? ||
  optLt (catIndexes arr isPseudoClassFragB).head? (catIndexes arr isClassFragB).head? ||
  optLt (catIndexes arr isClassFragB).head? (catIndexes arr isIdFragB).head? ||
  optLt (catIndexes arr isClassFragB).head? (catIndexes arr isElemFragB).head? ||
  optLt (catIndexes arr isPseudoClassFragB).head? (catIndexes arr isAttrFragB).head? ||
  optLt (catIndexes arr isPseudoClassFragB).head? (catIndexes arr isIdFragB).head? ||
  optLt (catIndexes arr isPseudoElemFragB).head? (catIndexes arr isPseudoClassFragB).head? ||
  optLt (catIndexes arr isPseudoElemFragB).head? (catIndexes arr isIdFragB).head? ||
  optLt (catIndexes arr isIdFragB).head? (catIndexes arr isElemFragB).head?

/-- Source function checkOrder: throws the order message when the nine-comparison
condition holds, otherwise returns normally. -/
def checkOrder (arr : List String) : Except String Unit :=
  if checkOrderFails arr then Except.error orderErrorMsg else Except.ok ()

/-- The state of the source class MyCssSelector. -/
structure MyCssSelector where
  selectorsChain : List String
  combinedSelectors : List String
deriving DecidableEq, Repr

/-- Source method element: duplicate check (an existing fragment with none of
dot, colon, hash throws the duplicate message), then push the bare value,
then checkOrder. -/
def MyCssSelector.element (self : MyCssSelector) (value : String) :
    Except String MyCssSelector :=
  if self.selectorsChain.any isElemFragB then
    Except.error duplicateErrorMsg
  else
    (checkOrder (self.selectorsChain ++ [value])).map
      (fun _ => { self with selectorsChain := self.selectorsChain ++ [value] })

/-- Source method id: duplicate check (an existing fragment containing a hash
throws the duplicate message), then push the hash-prefixed value, then checkOrder. -/
def MyCssSelector.id (self : MyCssSelector) (value : String) :
    Except String MyCssSelector :=
  if self.selectorsChain.any isIdFragB then
    Except.error duplicateErrorMsg
  else
    (checkOrder (self.selectorsChain ++ ["#" ++ value])).map
      (fun _ => { self with selectorsChain := self.selectorsChain ++ ["#" ++ value] })

/-- Source method class: push the dot-prefixed value, then checkOrder. -/
def MyCssSelector.«class» (self : MyCssSelector) (value : String) :
    Except String MyCssSelector :=
  (checkOrder (self.selectorsChain ++ ["." ++ value])).map
    (fun _ => { self with selectorsChain := self.selectorsChain ++ ["." ++ value] })

/-- Source method attr: push the bracketed value, then checkOrder. -/
def MyCssSelector.attr (self : MyCssSelector) (value : String) :
    Except String MyCssSelector :=
  (checkOrder (self.selectorsChain ++ ["[" ++ value ++ "]"])).map
    (fun _ => { self with selectorsChain := self.selectorsChain ++ ["[" ++ value ++ "]"] })

/-- Source method pseudoClass: push the colon-prefixed value, then checkOrder. -/
def MyCssSelector.pseudoClass (self : MyCssSelector) (value : String) :
    Except String MyCssSelector :=
  (checkOrder (self.selectorsChain ++ [":" ++ value])).map
    (fun _ => { self with selectorsChain := self.selectorsChain ++ [":" ++ value] })

/-- Source method pseudoElement: duplicate check (an existing fragment containing
two adjacent colons throws the duplicate message), then push the double-colon
prefixed value, then checkOrder. -/
def MyCssSelector.pseudoElement (self : MyCssSelector) (value : String) :
    Except String MyCssSelector :=
  if self.selectorsChain.any isPseudoElemFragB then
    Except.error duplicateErrorMsg
  else
    (checkOrder (self.selectorsChain ++ ["::" ++ value])).map
      (fun _ => { self with selectorsChain := self.selectorsChain ++ ["::" ++ value] })

/-- JS Array.prototype.join with a separator. -/
def joinSep (sep : String) : List String → String
  | [] => ""
  | [a] => a
  | a :: b :: t => a ++ sep ++ joinSep sep (b :: t)

/-- Source method stringify: with a non-empty combined buffer, join it with
spaces and leave the state untouched; otherwise join the chain with the empty
separator and clear the chain. Returns the text and the post-call state. -/
def MyCssSelector.stringify (self : MyCssSelector) : String × MyCssSelector :=
  match self.combinedSelectors with
  | [] => (joinSep "" self.selectorsChain, { self with selectorsChain := [] })
  | _ => (joinSep " " self.combinedSelectors, self)

/-- Source method combine: stringifies both operands (mutating them) and pushes
the three tokens onto the combined buffer. Returns the post-call self, first
operand and second operand. -/
def MyCssSelector.combine (self s1 : MyCssSelector) (c : String) (s2 : MyCssSelector) :
    MyCssSelector × MyCssSelector × MyCssSelector :=
  let r1 := s1.stringify
  let r2 := s2.stringify
  ({ self with combinedSelectors := self.combinedSelectors ++ [r1.1, c, r2.1] },
   r1.2, r2.2)

namespace cssSelectorBuilder

/-- Facade method element: fresh builder, then the method. -/
def element (value : String) : Except String MyCssSelector :=
  (MyCssSelector.mk [] []).element value

/-- Facade method id: fresh builder, then the method. -/
def id (value : String) : Except String MyCssSelector :=
  (MyCssSelector.mk [] []).id value

/-- Facade method class: fresh builder, then the method. -/
def «class» (value : String) : Except String MyCssSelector :=
  (MyCssSelector.mk [] []).«class» value

/-- Facade method attr: fresh builder, then the method. -/
def attr (value : String) : Except String MyCssSelector :=
  (MyCssSelector.mk [] []).attr value

/-- Facade method pseudoClass: fresh builder, then the method. -/
def pseudoClass (value : String) : Except String MyCssSelector :=
  (MyCssSelector.mk [] []).pseudoClass value

/-- Facade method pseudoElement: fresh builder, then the method. -/
def pseudoElement (value : String) : Except String MyCssSelector :=
  (MyCssSelector.mk [] []).pseudoElement value

/-- Facade method combine: fresh builder, then the method. -/
def combine (s1 : MyCssSelector) (c : String) (s2 : MyCssSelector) :
    MyCssSelector × MyCssSelector × MyCssSelector :=
  (MyCssSelector.mk [] []).combine s1 c s2

/-- Facade method stringify: fresh builder, then the method. -/
def stringify : String × MyCssSelector := (MyCssSelector.mk [] []).stringify

end cssSelectorBuilder

/-! Specification-side definitions, used to state the claims against the
embedding above. -/

/-- Index of the first list entry satisfying the predicate, none when absent.
This is the first-occurrence position the specification speaks about. -/
def firstIdx (P : String → Bool) : List String → Option Nat
  | [] => none
  | a :: t => if P a then some 0 else (firstIdx P t).map (· + 1)

/-- The nine pairwise comparisons the source order check performs, restated over
first-occurrence positions; comparisons with an absent category never fire. -/
def orderViolation (arr : List String) : Bool :=
  optLt (firstIdx isAttrFragB arr) (firstIdx isClassFragB arr) ||
  optLt (firstIdx isPseudoClassFragB arr) (firstIdx isClassFragB arr) ||
  optLt (firstIdx isClassFragB arr) (firstIdx isIdFragB arr) ||
  optLt (firstIdx isClassFragB arr) (firstIdx isElemFragB arr) ||
  optLt (firstIdx isPseudoClassFragB arr) (firstIdx isAttrFragB arr) ||
  optLt (firstIdx isPseudoClassFragB arr) (firstIdx isIdFragB arr) ||
  optLt (firstIdx isPseudoElemFragB arr) (firstIdx isPseudoClassFragB arr) ||
  optLt (firstIdx isPseudoElemFragB arr) (firstIdx isIdFragB arr) ||
  optLt (firstIdx isIdFragB arr) (firstIdx isElemFragB arr)

/-- The six fragment categories of the specification. -/
inductive SpecCat where
  | element
  | id
  | «class»
  | attribute
  | pseudoClass
  | pseudoElement
deriving DecidableEq, Repr

/-- Modelled from the spec: classification of a fragment by its leading symbol
(double colon, single colon, hash, dot, opening bracket, otherwise element).
Used only to state which category a chain fragment belongs to. -/
def specCat (s : String) : SpecCat :=
  match s.data with
  | ':' :: ':' :: _ => SpecCat.pseudoElement
  | ':' :: _ => SpecCat.pseudoClass
  | '#' :: _ => SpecCat.id
  | '.' :: _ => SpecCat.«class»
  | '[' :: _ => SpecCat.attribute
  | _ => SpecCat.element

/-- A character legal inside an identifier value: letters, digits, hyphen,
underscore. -/
def isIdentChar (c : Char) : Bool := c.isAlphanum || c == '-' || c == '_'

/-- An identifier value: every character is an identifier character. -/
def isIdent (s : String) : Bool := s.data.all isIdentChar

/-! Infrastructure lemmas. -/

theorem charMem_append (c : Char) (l1 l2 : List Char) :
    charMem c (l1 ++ l2) = (charMem c l1 || charMem c l2) := by
  induction l1 with
  | nil => simp [charMem]
  | cons a t ih => simp [charMem, ih, Bool.or_assoc]

theorem charMem_of_all (c : Char) (hc : isIdentChar c = false) :
    ∀ l : List Char, l.all isIdentChar = true → charMem c l = false := by
  intro l hl
  induction l with
  | nil => rfl
  | cons a t ih =>
      rw [List.all_cons, Bool.and_eq_true] at hl
      have hne : a ≠ c := by
        intro he
        rw [he, hc] at hl
        exact Bool.false_ne_true hl.1
      simp [charMem, hne, ih hl.2]

theorem hasDC_of_noColon : ∀ l : List Char, charMem ':' l = false → hasDoubleColon l = false := by
  intro l h
  induction l with
  | nil => rfl
  | cons a t ih =>
      rw [charMem, Bool.or_eq_false_iff] at h
      cases t with
      | nil => rfl
      | cons b t2 => simp [hasDoubleColon, h.1, ih h.2]

theorem head_filter {α : Type} (P : α → Bool) (l : List α) :
    (l.filter P).head? = l.find? P := by
  induction l with
  | nil => rfl
  | cons a t ih =>
      rw [List.filter_cons, List.find?]
      by_cases h : P a = true
      · simp [h]
      · simp [h, ih]

theorem find?_map_jsIndexOf (P : String → Bool) :
    ∀ arr : List String, Option.map (jsIndexOf arr) (arr.find? P) = firstIdx P arr := by
  intro arr
  induction arr with
  | nil => rfl
  | cons a t ih =>
      by_cases hP : P a = true
      · rw [List.find?_cons_of_pos t hP, firstIdx, if_pos hP]
        simp [jsIndexOf]
      · rw [List.find?_cons_of_neg t hP, firstIdx, if_neg hP, ← ih]
        cases hf : t.find? P with
        | none => rfl
        | some x =>
            have hPx : P x = true := List.find?_some hf
            have hax : a ≠ x := by
              intro he
              rw [he, hPx] at hP
              exact hP rfl
            simp [jsIndexOf, hax]

theorem catIndexes_head (arr : List String) (P : String → Bool) :
    (catIndexes arr P).head? = firstIdx P arr := by
  rw [catIndexes, List.head?_map, head_filter, find?_map_jsIndexOf]

theorem checkOrderFails_eq_orderViolation (arr : List String) :
    checkOrderFails arr = orderViolation arr := by
  rw [checkOrderFails, orderViolation, catIndexes_head, catIndexes_head, catIndexes_head,
    catIndexes_head, catIndexes_head, catIndexes_head]

theorem join_cons (a : String) (l : List String) :
    String.join (a :: l) = a ++ String.join l := by
  apply String.ext
  simp [String.join_eq, String.data_append]

theorem joinSep_empty_sep : ∀ l : List String, joinSep "" l = String.join l := by
  intro l
  induction l with
  | nil => rfl
  | cons a t ih =>
      cases t with
      | nil =>
          rw [joinSep, join_cons]
          apply String.ext
          simp [String.data_append, String.join_eq]
      | cons b t2 =>
          rw [joinSep, join_cons, ← ih, String.append_empty]

/-! Classification of the six fragment shapes built from identifier values. -/

theorem ident_no_dot {w : String} (hw : isIdent w = true) : charMem '.' w.data = false :=
  charMem_of_all '.' (by decide) w.data hw

theorem ident_no_colon {w : String} (hw : isIdent w = true) : charMem ':' w.data = false :=
  charMem_of_all ':' (by decide) w.data hw

theorem ident_no_hash {w : String} (hw : isIdent w = true) : charMem '#' w.data = false :=
  charMem_of_all '#' (by decide) w.data hw

theorem ident_no_lbrack {w : String} (hw : isIdent w = true) : charMem '[' w.data = false :=
  charMem_of_all '[' (by decide) w.data hw

theorem data_idFrag (w : String) : ("#" ++ w).data = '#' :: w.data := by
  rw [String.data_append]; rfl

theorem data_classFrag (w : String) : ("." ++ w).data = '.' :: w.data := by
  rw [String.data_append]; rfl

theorem data_attrFrag (w : String) : ("[" ++ w ++ "]").data = '[' :: (w.data ++ [']']) := by
  rw [String.data_append, String.data_append]; rfl

theorem data_pcFrag (w : String) : (":" ++ w).data = ':' :: w.data := by
  rw [String.data_append]; rfl

theorem data_peFrag (w : String) : ("::" ++ w).data = ':' :: ':' :: w.data := by
  rw [String.data_append]; rfl

theorem ident_head_ne_colon {w : String} (hw : isIdent w = true) :
    decide (w.data.head? = some ':') = false := by
  cases hd : w.data with
  | nil => rfl
  | cons a t =>
      have ha : isIdentChar a = true := by
        rw [isIdent, hd, List.all_cons, Bool.and_eq_true] at hw
        exact hw.1
      have hne : a ≠ ':' := by
        intro he
        rw [he] at ha
        exact absurd ha (by decide)
      simp [hne]

theorem elemF_id {w : String} (hw : isIdent w = true) : isIdFragB w = false := by
  rw [isIdFragB, jsIncludes]; exact ident_no_hash hw

theorem elemF_elem {w : String} (hw : isIdent w = true) : isElemFragB w = true := by
  rw [isElemFragB, jsIncludes, jsIncludes, jsIncludes,
    ident_no_dot hw, ident_no_colon hw, ident_no_hash hw]
  rfl

theorem elemF_class {w : String} (hw : isIdent w = true) : isClassFragB w = false := by
  rw [isClassFragB, jsIncludes]; exact ident_no_dot hw

theorem elemF_attr {w : String} (hw : isIdent w = true) : isAttrFragB w = false := by
  rw [isAttrFragB, jsIncludes]; exact ident_no_lbrack hw

theorem elemF_pc {w : String} (hw : isIdent w = true) : isPseudoClassFragB w = false := by
  rw [isPseudoClassFragB, startsSingleColon, ident_head_ne_colon hw]
  rfl

theorem elemF_pe {w : String} (hw : isIdent w = true) : isPseudoElemFragB w = false := by
  rw [isPseudoElemFragB]
  exact hasDC_of_noColon w.data (ident_no_colon hw)

theorem idF_id (w : String) : isIdFragB ("#" ++ w) = true := by
  rw [isIdFragB, jsIncludes, data_idFrag]
  simp [charMem]

theorem idF_elem (w : String) : isElemFragB ("#" ++ w) = false := by
  rw [isElemFragB, jsIncludes, jsIncludes, jsIncludes, data_idFrag]
  simp [charMem]

theorem idF_class {w : String} (hw : isIdent w = true) : isClassFragB ("#" ++ w) = false := by
  rw [isClassFragB, jsIncludes, data_idFrag]
  simp [charMem, ident_no_dot hw]

theorem idF_attr {w : String} (hw : isIdent w = true) : isAttrFragB ("#" ++ w) = false := by
  rw [isAttrFragB, jsIncludes, data_idFrag]
  simp [charMem, ident_no_lbrack hw]

theorem idF_pc (w : String) : isPseudoClassFragB ("#" ++ w) = false := by
  rw [isPseudoClassFragB, startsSingleColon, data_idFrag]
  simp

theorem idF_pe {w : String} (hw : isIdent w = true) : isPseudoElemFragB ("#" ++ w) = false := by
  rw [isPseudoElemFragB, data_idFrag]
  apply hasDC_of_noColon
  simp [charMem, ident_no_colon hw]

theorem classF_id {w : String} (hw : isIdent w = true) : isIdFragB ("." ++ w) = false := by
  rw [isIdFragB, jsIncludes, data_classFrag]
  simp [charMem, ident_no_hash hw]

theorem classF_elem (w : String) : isElemFragB ("." ++ w) = false := by
  rw [isElemFragB, jsIncludes, jsIncludes, jsIncludes, data_classFrag]
  simp [charMem]

theorem classF_class (w : String) : isClassFragB ("." ++ w) = true := by
  rw [isClassFragB, jsIncludes, data_classFrag]
  simp [charMem]

theorem classF_attr {w : String} (hw : isIdent w = true) : isAttrFragB ("." ++ w) = false := by
  rw [isAttrFragB, jsIncludes, data_classFrag]
  simp [charMem, ident_no_lbrack hw]

theorem classF_pc (w : String) : isPseudoClassFragB ("." ++ w) = false := by
  rw [isPseudoClassFragB, startsSingleColon, data_classFrag]
  simp

theorem classF_pe {w : String} (hw : isIdent w = true) :
    isPseudoElemFragB ("." ++ w) = false := by
  rw [isPseudoElemFragB, data_classFrag]
  apply hasDC_of_noColon
  simp [charMem, ident_no_colon hw]

theorem attrF_id {w : String} (hw : isIdent w = true) :
    isIdFragB ("[" ++ w ++ "]") = false := by
  rw [isIdFragB, jsIncludes, data_attrFrag]
  simp [charMem, charMem_append, ident_no_hash hw]

theorem attrF_elem {w : String} (hw : isIdent w = true) :
    isElemFragB ("[" ++ w ++ "]") = true := by
  rw [isElemFragB, jsIncludes, jsIncludes, jsIncludes, data_attrFrag]
  simp [charMem, charMem_append, ident_no_dot hw, ident_no_colon hw, ident_no_hash hw]

theorem attrF_class {w : String} (hw : isIdent w = true) :
    isClassFragB ("[" ++ w ++ "]") = false := by
  rw [isClassFragB, jsIncludes, data_attrFrag]
  simp [charMem, charMem_append, ident_no_dot hw]

theorem attrF_attr (w : String) : isAttrFragB ("[" ++ w ++ "]") = true := by
  rw [isAttrFragB, jsIncludes, data_attrFrag]
  simp [charMem]

theorem attrF_pc (w : String) : isPseudoClassFragB ("[" ++ w ++ "]") = false := by
  rw [isPseudoClassFragB, startsSingleColon, data_attrFrag]
  simp

theorem attrF_pe {w : String} (hw : isIdent w = true) :
    isPseudoElemFragB ("[" ++ w ++ "]") = false := by
  rw [isPseudoElemFragB, data_attrFrag]
  apply hasDC_of_noColon
  simp [charMem, charMem_append, ident_no_colon hw]

theorem pcF_id {w : String} (hw : isIdent w = true) : isIdFragB (":" ++ w) = false := by
  rw [isIdFragB, jsIncludes, data_pcFrag]
  simp [charMem, ident_no_hash hw]

theorem pcF_elem (w : String) : isElemFragB (":" ++ w) = false := by
  rw [isElemFragB, jsIncludes, jsIncludes, jsIncludes, data_pcFrag]
  simp [charMem]

theorem pcF_class {w : String} (hw : isIdent w = true) : isClassFragB (":" ++ w) = false := by
  rw [isClassFragB, jsIncludes, data_pcFrag]
  simp [charMem, ident_no_dot hw]

theorem pcF_attr {w : String} (hw : isIdent w = true) : isAttrFragB (":" ++ w) = false := by
  rw [isAttrFragB, jsIncludes, data_pcFrag]
  simp [charMem, ident_no_lbrack hw]

theorem pcF_pc {w : String} (hw : isIdent w = true) :
    isPseudoClassFragB (":" ++ w) = true := by
  rw [isPseudoClassFragB, startsSingleColon, data_pcFrag]
  have h1 : decide ((':' :: w.data).head? = some ':') = true := by simp
  have h2 : decide ((':' :: w.data).get? 1 = some ':') = false := by
    rw [List.get?_cons_succ]
    cases hd : w.data with
    | nil => rfl
    | cons a t =>
        have ha : isIdentChar a = true := by
          rw [isIdent, hd, List.all_cons, Bool.and_eq_true] at hw
          exact hw.1
        have hne : a ≠ ':' := by
          intro he
          rw [he] at ha
          exact absurd ha (by decide)
        simp [hne]
  rw [h1, h2]
  rfl

theorem pcF_pe {w : String} (hw : isIdent w = true) :
    isPseudoElemFragB (":" ++ w) = false := by
  rw [isPseudoElemFragB, data_pcFrag]
  cases hd : w.data with
  | nil => rfl
  | cons b t =>
      have hb : isIdentChar b = true := by
        rw [isIdent, hd, List.all_cons, Bool.and_eq_true] at hw
        exact hw.1
      have hbne : b ≠ ':' := by
        intro he
        rw [he] at hb
        exact absurd hb (by decide)
      have hrest : hasDoubleColon (b :: t) = false := by
        apply hasDC_of_noColon
        have := ident_no_colon hw
        rwa [hd] at this
      simp [hasDoubleColon, hbne, hrest]

theorem peF_id {w : String} (hw : isIdent w = true) : isIdFragB ("::" ++ w) = false := by
  rw [isIdFragB, jsIncludes, data_peFrag]
  simp [charMem, ident_no_hash hw]

theorem peF_elem (w : String) : isElemFragB ("::" ++ w) = false := by
  rw [isElemFragB, jsIncludes, jsIncludes, jsIncludes, data_peFrag]
  simp [charMem]

theorem peF_class {w : String} (hw : isIdent w = true) : isClassFragB ("::" ++ w) = false := by
  rw [isClassFragB, jsIncludes, data_peFrag]
  simp [charMem, ident_no_dot hw]

theorem peF_attr {w : String} (hw : isIdent w = true) : isAttrFragB ("::" ++ w) = false := by
  rw [isAttrFragB, jsIncludes, data_peFrag]
  simp [charMem, ident_no_lbrack hw]

theorem peF_pc (w : String) : isPseudoClassFragB ("::" ++ w) = false := by
  rw [isPseudoClassFragB, startsSingleColon, data_peFrag]
  simp

theorem peF_pe (w : String) : isPseudoElemFragB ("::" ++ w) = true := by
  rw [isPseudoElemFragB, data_peFrag]
  simp [hasDoubleColon]

theorem msgs_ne : duplicateErrorMsg ≠ orderErrorMsg := by decide

theorem map_error {α β : Type} (e : String) (f : α → β) :
    (Except.error e : Except String α).map f = Except.error e := rfl

theorem map_ok {α β : Type} (a : α) (f : α → β) :
    (Except.ok a : Except String α).map f = Except.ok (f a) := rfl

theorem checkOrder_of_violation (arr : List String) (h : orderViolation arr = true) :
    checkOrder arr = Except.error orderErrorMsg := by
  rw [checkOrder, checkOrderFails_eq_orderViolation, h]
  rfl

theorem checkOrder_of_ok (arr : List String) (h : orderViolation arr = false) :
    checkOrder arr = Except.ok () := by
  rw [checkOrder, checkOrderFails_eq_orderViolation, h]
  rfl

/-! Claim theorems. -/

/-- C2 counterexample: the chain already contains a pseudo-element fragment, yet a
subsequent element append succeeds, in particular it does not raise the duplicate
message. This refutes the claim that element fails with DuplicateOrMisplacedError
whenever an element, id, or pseudo-element fragment is present. -/
theorem pseudoElement_then_element_no_duplicate :
    (cssSelectorBuilder.pseudoElement ("before") >>= fun b => b.element ("a")) =
      Except.ok (MyCssSelector.mk ["::before", "a"] []) := rfl

/-- C2 (corrected): element raises the duplicate message exactly when some fragment
already in the chain contains none of dot, colon, hash, i.e. an element fragment;
an id or pseudo-element fragment alone never triggers this error. -/
theorem element_duplicateError_iff (s : MyCssSelector) (v : String) :
    s.element v = Except.error duplicateErrorMsg ↔
      s.selectorsChain.any isElemFragB = true := by
  rw [MyCssSelector.element]
  by_cases hd : s.selectorsChain.any isElemFragB = true
  · simp [hd]
  · rw [if_neg hd]
    have hdf : s.selectorsChain.any isElemFragB = false := by
      rwa [Bool.not_eq_true] at hd
    rw [hdf]
    by_cases hv : orderViolation (s.selectorsChain ++ [v]) = true
    · rw [checkOrder_of_violation _ hv, map_error]
      constructor
      · intro he
        exact absurd (Except.error.inj he).symm msgs_ne
      · intro hft
        exact absurd hft (by decide)
    · have hvf : orderViolation (s.selectorsChain ++ [v]) = false := by
        rwa [Bool.not_eq_true] at hv
      rw [checkOrder_of_ok _ hvf, map_ok]
      constructor
      · intro he
        exact Except.noConfusion he
      · intro hft
        exact absurd hft (by decide)

/-- C1 counterexample: a pseudo-class fragment followed by an element fragment is
accepted by the builder although the pseudo-class category occurs strictly before
the element category, an inversion of the claimed total order. -/
theorem pseudoClass_then_element_accepted :
    (cssSelectorBuilder.pseudoClass ("focus") >>= fun b => b.element ("a")) =
      Except.ok (MyCssSelector.mk [":focus", "a"] []) ∧
    [":focus", "a"].map specCat = [SpecCat.pseudoClass, SpecCat.element] :=
  ⟨rfl, rfl⟩

/-- C8 counterexample: a class fragment followed by an attribute fragment is in the
canonical category order, yet the append raises the order error, because the
attribute fragment contains none of dot, colon, hash and is therefore also counted
as an element occurrence by the source classification. -/
theorem class_then_attr_rejected_despite_order :
    (cssSelectorBuilder.«class» ("x") >>= fun b => b.attr ("href")) =
      Except.error orderErrorMsg ∧
    [".x", "[href]"].map specCat = [SpecCat.«class», SpecCat.attribute] :=
  ⟨rfl, rfl⟩

/-- C3 (confirmed): combine stores the two rendered operands around the combinator
as the combined-output buffer of a fresh builder, for every combinator string, and
the subsequent stringify joins the three tokens with single spaces; the concrete
example of the claim renders as expected. -/
theorem combine_stores_and_joins :
    (∀ (l r : MyCssSelector) (c : String),
      (cssSelectorBuilder.combine l c r).1.combinedSelectors =
        [l.stringify.1, c, r.stringify.1] ∧
      (cssSelectorBuilder.combine l c r).1.stringify.1 =
        l.stringify.1 ++ " " ++ c ++ " " ++ r.stringify.1) ∧
    (cssSelectorBuilder.element ("div") >>= fun b => b.id ("main") >>= fun l =>
      cssSelectorBuilder.element ("table") >>= fun b2 => b2.id ("data") >>= fun r =>
      Except.ok (cssSelectorBuilder.combine l ("+") r).1.stringify.1) =
      Except.ok ("div#main + table#data") := by
  constructor
  · intro l r c
    refine ⟨rfl, ?_⟩
    show joinSep " " [l.stringify.1, c, r.stringify.1] = _
    simp [joinSep, String.append_assoc]
  · rfl

/-- C5 (confirmed): with an empty combined buffer, stringify returns the
concatenation of the chain fragments in append order and clears the chain, so a
second stringify with no intervening appends returns the empty string. -/
theorem stringify_clears_chain (s : MyCssSelector) (h : s.combinedSelectors = []) :
    s.stringify.1 = String.join s.selectorsChain ∧
    s.stringify.2.selectorsChain = [] ∧
    s.stringify.2.stringify.1 = "" := by
  obtain ⟨chain, comb⟩ := s
  cases h
  exact ⟨joinSep_empty_sep chain, rfl, rfl⟩

/-- Witness for C5 at a concrete two-fragment builder. -/
theorem stringify_clears_chain_example :
    (MyCssSelector.mk ["#main", ".x"] []).stringify.1 = ("#main.x") ∧
    (MyCssSelector.mk ["#main", ".x"] []).stringify.2.stringify.1 = ("") :=
  ⟨(stringify_clears_chain (MyCssSelector.mk ["#main", ".x"] []) rfl).1,
   (stringify_clears_chain (MyCssSelector.mk ["#main", ".x"] []) rfl).2.2⟩

/-- C6 (confirmed): with a non-empty combined buffer, stringify leaves the state
entirely unchanged, so repeated calls return the identical string. -/
theorem stringify_combined_idempotent (s : MyCssSelector) (h : s.combinedSelectors ≠ []) :
    s.stringify.2 = s ∧ s.stringify.2.stringify.1 = s.stringify.1 := by
  obtain ⟨chain, comb⟩ := s
  cases comb with
  | nil => exact absurd rfl h
  | cons a t => exact ⟨rfl, rfl⟩

/-- Witness for C6 at a concrete combined builder. -/
theorem stringify_combined_idempotent_example :
    (MyCssSelector.mk [] ["div#main", "+", "table#data"]).stringify.2 =
      MyCssSelector.mk [] ["div#main", "+", "table#data"] ∧
    (MyCssSelector.mk [] ["div#main", "+", "table#data"]).stringify.2.stringify.1 =
      (MyCssSelector.mk [] ["div#main", "+", "table#data"]).stringify.1 :=
  stringify_combined_idempotent (MyCssSelector.mk [] ["div#main", "+", "table#data"])
    (by decide)

/-- C7 (confirmed): appending a fragment of a cardinality-limited category to a chain
that already holds a fragment of the same category raises the duplicate message:
an id fragment blocks id, an element fragment (identifier value) blocks element,
and a pseudo-element fragment blocks pseudoElement. -/
theorem duplicate_category_duplicateError (s : MyCssSelector) (v w : String) :
    (("#" ++ w) ∈ s.selectorsChain → s.id v = Except.error duplicateErrorMsg) ∧
    (isIdent w = true → w ∈ s.selectorsChain →
      s.element v = Except.error duplicateErrorMsg) ∧
    (("::" ++ w) ∈ s.selectorsChain →
      s.pseudoElement v = Except.error duplicateErrorMsg) := by
  refine ⟨fun hmem => ?_, fun hw hmem => ?_, fun hmem => ?_⟩
  · have hdup : s.selectorsChain.any isIdFragB = true :=
      List.any_eq_true.mpr ⟨_, hmem, idF_id w⟩
    rw [MyCssSelector.id, if_pos hdup]
  · have hdup : s.selectorsChain.any isElemFragB = true :=
      List.any_eq_true.mpr ⟨_, hmem, elemF_elem hw⟩
    rw [MyCssSelector.element, if_pos hdup]
  · have hdup : s.selectorsChain.any isPseudoElemFragB = true :=
      List.any_eq_true.mpr ⟨_, hmem, peF_pe w⟩
    rw [MyCssSelector.pseudoElement, if_pos hdup]

/-- Witness for C7: a second id, a second element, a second pseudo-element. -/
theorem duplicate_category_duplicateError_example :
    (MyCssSelector.mk ["#main"] []).id ("data") = Except.error duplicateErrorMsg ∧
    (MyCssSelector.mk ["a"] []).element ("b") = Except.error duplicateErrorMsg ∧
    (MyCssSelector.mk ["::before"] []).pseudoElement ("after") =
      Except.error duplicateErrorMsg :=
  ⟨(duplicate_category_duplicateError (MyCssSelector.mk ["#main"] []) ("data")
      ("main")).1 (by decide),
   (duplicate_category_duplicateError (MyCssSelector.mk ["a"] []) ("b")
      ("a")).2.1 (by decide) (by decide),
   (duplicate_category_duplicateError (MyCssSelector.mk ["::before"] []) ("after")
      ("before")).2.2 (by decide)⟩

/-- C10 (confirmed): combine stringifies its first operand, which clears that
operand's fragment chain, so a later stringify on the consumed operand yields the
empty string. -/
theorem combine_consumes_left_operand (self s1 s2 : MyCssSelector) (c : String)
    (h1 : s1.selectorsChain ≠ []) (h2 : s1.combinedSelectors = []) :
    ((self.combine s1 c s2).2.1).stringify.1 = "" ∧
    ((self.combine s1 c s2).2.1).selectorsChain = [] := by
  obtain ⟨chain, comb⟩ := s1
  cases h2
  exact ⟨rfl, rfl⟩

theorem bind_ok {α β : Type} (a : α) (f : α → Except String β) :
    (Except.ok a : Except String α) >>= f = f a := rfl

theorem map_checkOrder_error_iff (arr : List String) (s' : MyCssSelector) :
    (checkOrder arr).map (fun _ => s') = Except.error orderErrorMsg ↔
      orderViolation arr = true := by
  by_cases hv : orderViolation arr = true
  · rw [checkOrder_of_violation _ hv, map_error, hv]
    simp
  · have hvf : orderViolation arr = false := by rwa [Bool.not_eq_true] at hv
    rw [checkOrder_of_ok _ hvf, map_ok, hvf]
    constructor
    · intro he
      exact Except.noConfusion he
    · intro hft
      exact absurd hft (by decide)

/-- C1 (corrected, amended): a fragment append raises the order error with the stated
message exactly when the duplicate check of the method passes and the extended chain
violates one of the nine comparisons the source performs over category
first-occurrence positions (attribute before class, pseudo-class before class, id
after class, element after class, attribute after pseudo-class, id after
pseudo-class, pseudo-class after pseudo-element, id after pseudo-element, element
after id), comparisons with an absent category never firing. Inversions in the six
unchecked pairs are accepted (see the counterexample). -/
theorem orderError_characterization (s : MyCssSelector) (v : String) :
    (s.element v = Except.error orderErrorMsg ↔
      (s.selectorsChain.any isElemFragB = false ∧
        orderViolation (s.selectorsChain ++ [v]) = true)) ∧
    (s.id v = Except.error orderErrorMsg ↔
      (s.selectorsChain.any isIdFragB = false ∧
        orderViolation (s.selectorsChain ++ ["#" ++ v]) = true)) ∧
    (s.«class» v = Except.error orderErrorMsg ↔
      orderViolation (s.selectorsChain ++ ["." ++ v]) = true) ∧
    (s.attr v = Except.error orderErrorMsg ↔
      orderViolation (s.selectorsChain ++ ["[" ++ v ++ "]"]) = true) ∧
    (s.pseudoClass v = Except.error orderErrorMsg ↔
      orderViolation (s.selectorsChain ++ [":" ++ v]) = true) ∧
    (s.pseudoElement v = Except.error orderErrorMsg ↔
      (s.selectorsChain.any isPseudoElemFragB = false ∧
        orderViolation (s.selectorsChain ++ ["::" ++ v]) = true)) := by
  refine ⟨?_, ?_, ?_, ?_, ?_, ?_⟩
  · by_cases hd : s.selectorsChain.any isElemFragB = true
    · rw [MyCssSelector.element, if_pos hd, hd]
      constructor
      · intro he
        exact absurd (Except.error.inj he) msgs_ne
      · rintro ⟨hft, _⟩
        exact absurd hft (by decide)
    · have hdf : s.selectorsChain.any isElemFragB = false := by
        rwa [Bool.not_eq_true] at hd
      rw [MyCssSelector.element, if_neg hd, hdf, map_checkOrder_error_iff]
      simp
  · by_cases hd : s.selectorsChain.any isIdFragB = true
    · rw [MyCssSelector.id, if_pos hd, hd]
      constructor
      · intro he
        exact absurd (Except.error.inj he) msgs_ne
      · rintro ⟨hft, _⟩
        exact absurd hft (by decide)
    · have hdf : s.selectorsChain.any isIdFragB = false := by
        rwa [Bool.not_eq_true] at hd
      rw [MyCssSelector.id, if_neg hd, hdf, map_checkOrder_error_iff]
      simp
  · rw [MyCssSelector.«class», map_checkOrder_error_iff]
  · rw [MyCssSelector.attr, map_checkOrder_error_iff]
  · rw [MyCssSelector.pseudoClass, map_checkOrder_error_iff]
  · by_cases hd : s.selectorsChain.any isPseudoElemFragB = true
    · rw [MyCssSelector.pseudoElement, if_pos hd, hd]
      constructor
      · intro he
        exact absurd (Except.error.inj he) msgs_ne
      · rintro ⟨hft, _⟩
        exact absurd hft (by decide)
    · have hdf : s.selectorsChain.any isPseudoElemFragB = false := by
        rwa [Bool.not_eq_true] at hd
      rw [MyCssSelector.pseudoElement, if_neg hd, hdf, map_checkOrder_error_iff]
      simp

/-- C4 (confirmed): one fragment of each category, identifier values, appended in the
canonical order, all succeed, and stringify returns the fragments with their own
prefixes concatenated in append order. -/
theorem full_chain_six_categories (v1 v2 v3 v4 v5 v6 : String)
    (h1 : isIdent v1 = true) (h2 : isIdent v2 = true) (h3 : isIdent v3 = true)
    (h4 : isIdent v4 = true) (h5 : isIdent v5 = true) (h6 : isIdent v6 = true) :
    (cssSelectorBuilder.element v1 >>= fun b => b.id v2 >>= fun b =>
      b.«class» v3 >>= fun b => b.attr v4 >>= fun b =>
      b.pseudoClass v5 >>= fun b => b.pseudoElement v6) =
      Except.ok (MyCssSelector.mk
        [v1, "#" ++ v2, "." ++ v3, "[" ++ v4 ++ "]", ":" ++ v5, "::" ++ v6] []) ∧
    (MyCssSelector.mk
      [v1, "#" ++ v2, "." ++ v3, "[" ++ v4 ++ "]", ":" ++ v5, "::" ++ v6] []).stringify.1 =
      v1 ++ "#" ++ v2 ++ "." ++ v3 ++ "[" ++ v4 ++ "]" ++ ":" ++ v5 ++ "::" ++ v6 := by
  have e1 : cssSelectorBuilder.element v1 = Except.ok (MyCssSelector.mk [v1] []) := by
    have hv : orderViolation ([] ++ [v1]) = false := by
      simp [orderViolation, firstIdx, optLt, elemF_id h1, elemF_elem h1, elemF_class h1,
        elemF_attr h1, elemF_pc h1, elemF_pe h1]
    rw [cssSelectorBuilder.element, MyCssSelector.element, if_neg (by simp),
      checkOrder_of_ok _ hv, map_ok]
    rfl
  have e2 : (MyCssSelector.mk [v1] []).id v2 =
      Except.ok (MyCssSelector.mk [v1, "#" ++ v2] []) := by
    have hv : orderViolation ([v1] ++ ["#" ++ v2]) = false := by
      simp [orderViolation, firstIdx, optLt, elemF_id h1, elemF_elem h1, elemF_class h1,
        elemF_attr h1, elemF_pc h1, elemF_pe h1, idF_id, idF_elem, idF_class h2,
        idF_attr h2, idF_pc, idF_pe h2]
    rw [MyCssSelector.id, if_neg (by simp [elemF_id h1]), checkOrder_of_ok _ hv, map_ok]
    rfl
  have e3 : (MyCssSelector.mk [v1, "#" ++ v2] []).«class» v3 =
      Except.ok (MyCssSelector.mk [v1, "#" ++ v2, "." ++ v3] []) := by
    have hv : orderViolation ([v1, "#" ++ v2] ++ ["." ++ v3]) = false := by
      simp [orderViolation, firstIdx, optLt, elemF_id h1, elemF_elem h1, elemF_class h1,
        elemF_attr h1, elemF_pc h1, elemF_pe h1, idF_id, idF_elem, idF_class h2,
        idF_attr h2, idF_pc, idF_pe h2, classF_id h3, classF_elem, classF_class,
        classF_attr h3, classF_pc, classF_pe h3]
    rw [MyCssSelector.«class», checkOrder_of_ok _ hv, map_ok]
    rfl
  have e4 : (MyCssSelector.mk [v1, "#" ++ v2, "." ++ v3] []).attr v4 =
      Except.ok (MyCssSelector.mk [v1, "#" ++ v2, "." ++ v3, "[" ++ v4 ++ "]"] []) := by
    have hv : orderViolation ([v1, "#" ++ v2, "." ++ v3] ++ ["[" ++ v4 ++ "]"]) = false := by
      simp [orderViolation, firstIdx, optLt, elemF_id h1, elemF_elem h1, elemF_class h1,
        elemF_attr h1, elemF_pc h1, elemF_pe h1, idF_id, idF_elem, idF_class h2,
        idF_attr h2, idF_pc, idF_pe h2, classF_id h3, classF_elem, classF_class,
        classF_attr h3, classF_pc, classF_pe h3, attrF_id h4, attrF_elem h4,
        attrF_class h4, attrF_attr, attrF_pc, attrF_pe h4]
    rw [MyCssSelector.attr, checkOrder_of_ok _ hv, map_ok]
    rfl
  have e5 : (MyCssSelector.mk [v1, "#" ++ v2, "." ++ v3, "[" ++ v4 ++ "]"] []).pseudoClass v5 =
      Except.ok (MyCssSelector.mk
        [v1, "#" ++ v2, "." ++ v3, "[" ++ v4 ++ "]", ":" ++ v5] []) := by
    have hv : orderViolation
        ([v1, "#" ++ v2, "." ++ v3, "[" ++ v4 ++ "]"] ++ [":" ++ v5]) = false := by
      simp [orderViolation, firstIdx, optLt, elemF_id h1, elemF_elem h1, elemF_class h1,
        elemF_attr h1, elemF_pc h1, elemF_pe h1, idF_id, idF_elem, idF_class h2,
        idF_attr h2, idF_pc, idF_pe h2, classF_id h3, classF_elem, classF_class,
        classF_attr h3, classF_pc, classF_pe h3, attrF_id h4, attrF_elem h4,
        attrF_class h4, attrF_attr, attrF_pc, attrF_pe h4, pcF_id h5, pcF_elem,
        pcF_class h5, pcF_attr h5, pcF_pc h5, pcF_pe h5]
    rw [MyCssSelector.pseudoClass, checkOrder_of_ok _ hv, map_ok]
    rfl
  have e6 : (MyCssSelector.mk
      [v1, "#" ++ v2, "." ++ v3, "[" ++ v4 ++ "]", ":" ++ v5] []).pseudoElement v6 =
      Except.ok (MyCssSelector.mk
        [v1, "#" ++ v2, "." ++ v3, "[" ++ v4 ++ "]", ":" ++ v5, "::" ++ v6] []) := by
    have hv : orderViolation
        ([v1, "#" ++ v2, "." ++ v3, "[" ++ v4 ++ "]", ":" ++ v5] ++ ["::" ++ v6]) =
        false := by
      simp [orderViolation, firstIdx, optLt, elemF_id h1, elemF_elem h1, elemF_class h1,
        elemF_attr h1, elemF_pc h1, elemF_pe h1, idF_id, idF_elem, idF_class h2,
        idF_attr h2, idF_pc, idF_pe h2, classF_id h3, classF_elem, classF_class,
        classF_attr h3, classF_pc, classF_pe h3, attrF_id h4, attrF_elem h4,
        attrF_class h4, attrF_attr, attrF_pc, attrF_pe h4, pcF_id h5, pcF_elem,
        pcF_class h5, pcF_attr h5, pcF_pc h5, pcF_pe h5, peF_id h6, peF_elem,
        peF_class h6, peF_attr h6, peF_pc, peF_pe]
    rw [MyCssSelector.pseudoElement,
      if_neg (by simp [elemF_pe h1, idF_pe h2, classF_pe h3, attrF_pe h4, pcF_pe h5]),
      checkOrder_of_ok _ hv, map_ok]
    rfl
  constructor
  · rw [e1, bind_ok, e2, bind_ok, e3, bind_ok, e4, bind_ok, e5, bind_ok, e6]
  · show joinSep ""
      [v1, "#" ++ v2, "." ++ v3, "[" ++ v4 ++ "]", ":" ++ v5, "::" ++ v6] = _
    have hm : ("]" : String) ++ (":" ++ (v5 ++ ("::" ++ v6))) =
        "]:" ++ (v5 ++ ("::" ++ v6)) := by
      rw [← String.append_assoc]
      rfl
    simp [joinSep, String.append_assoc, hm]

/-- Witness for C4 at the identifier values of the claim. -/
theorem full_chain_six_categories_example :
    (cssSelectorBuilder.element ("a") >>= fun b => b.id ("main") >>= fun b =>
      b.«class» ("x") >>= fun b => b.attr ("href") >>= fun b =>
      b.pseudoClass ("focus") >>= fun b => b.pseudoElement ("before")) =
      Except.ok (MyCssSelector.mk
        ["a", "#main", ".x", "[href]", ":focus", "::before"] []) ∧
    (MyCssSelector.mk ["a", "#main", ".x", "[href]", ":focus", "::before"] []).stringify.1 =
      ("a#main.x[href]:focus::before") :=
  full_chain_six_categories ("a") ("main") ("x") ("href") ("focus") ("before")
    (by decide) (by decide) (by decide) (by decide) (by decide) (by decide)

/-- C8 (corrected, amended): comparisons with categories absent from the chain never
fire, so an id followed by repeated classes (identifier values) succeeds even though
the element category is missing, and stringify returns the prefixed fragments
concatenated; the counterexample shows the claimed universal (chains whose present
categories are in order never fail) does not hold, since an attribute fragment is
also counted as an element occurrence. -/
theorem id_then_classes_succeeds (v1 v2 v3 : String)
    (h1 : isIdent v1 = true) (h2 : isIdent v2 = true) (h3 : isIdent v3 = true) :
    (cssSelectorBuilder.id v1 >>= fun b => b.«class» v2 >>= fun b => b.«class» v3) =
      Except.ok (MyCssSelector.mk ["#" ++ v1, "." ++ v2, "." ++ v3] []) ∧
    (MyCssSelector.mk ["#" ++ v1, "." ++ v2, "." ++ v3] []).stringify.1 =
      "#" ++ v1 ++ "." ++ v2 ++ "." ++ v3 := by
  have e1 : cssSelectorBuilder.id v1 = Except.ok (MyCssSelector.mk ["#" ++ v1] []) := by
    have hv : orderViolation ([] ++ ["#" ++ v1]) = false := by
      simp [orderViolation, firstIdx, optLt, idF_id, idF_elem, idF_class h1,
        idF_attr h1, idF_pc, idF_pe h1]
    rw [cssSelectorBuilder.id, MyCssSelector.id, if_neg (by simp),
      checkOrder_of_ok _ hv, map_ok]
    rfl
  have e2 : (MyCssSelector.mk ["#" ++ v1] []).«class» v2 =
      Except.ok (MyCssSelector.mk ["#" ++ v1, "." ++ v2] []) := by
    have hv : orderViolation (["#" ++ v1] ++ ["." ++ v2]) = false := by
      simp [orderViolation, firstIdx, optLt, idF_id, idF_elem, idF_class h1,
        idF_attr h1, idF_pc, idF_pe h1, classF_id h2, classF_elem, classF_class,
        classF_attr h2, classF_pc, classF_pe h2]
    rw [MyCssSelector.«class», checkOrder_of_ok _ hv, map_ok]
    rfl
  have e3 : (MyCssSelector.mk ["#" ++ v1, "." ++ v2] []).«class» v3 =
      Except.ok (MyCssSelector.mk ["#" ++ v1, "." ++ v2, "." ++ v3] []) := by
    have hv : orderViolation (["#" ++ v1, "." ++ v2] ++ ["." ++ v3]) = false := by
      simp [orderViolation, firstIdx, optLt, idF_id, idF_elem, idF_class h1,
        idF_attr h1, idF_pc, idF_pe h1, classF_id h2, classF_elem, classF_class,
        classF_attr h2, classF_pc, classF_pe h2, classF_id h3, classF_attr h3,
        classF_pe h3]
    rw [MyCssSelector.«class», checkOrder_of_ok _ hv, map_ok]
    rfl
  constructor
  · rw [e1, bind_ok, e2, bind_ok, e3]
  · show joinSep "" ["#" ++ v1, "." ++ v2, "." ++ v3] = _
    simp [joinSep, String.append_assoc]

/-- Witness for C8 at the identifier values of the claim. -/
theorem id_then_classes_succeeds_example :
    (cssSelectorBuilder.id ("main") >>= fun b => b.«class» ("container") >>= fun b =>
      b.«class» ("editable")) =
      Except.ok (MyCssSelector.mk ["#main", ".container", ".editable"] []) ∧
    (MyCssSelector.mk ["#main", ".container", ".editable"] []).stringify.1 =
      ("#main.container.editable") :=
  id_then_classes_succeeds ("main") ("container") ("editable")
    (by decide) (by decide) (by decide)

/-- C9 (confirmed): a class fragment followed by an element fragment (identifier
values) raises the order error. -/
theorem class_before_element_orderError (v w : String)
    (hv : isIdent v = true) (hw : isIdent w = true) :
    (cssSelectorBuilder.«class» v >>= fun b => b.element w) =
      Except.error orderErrorMsg := by
  have e1 : cssSelectorBuilder.«class» v = Except.ok (MyCssSelector.mk ["." ++ v] []) := by
    have hok : orderViolation ([] ++ ["." ++ v]) = false := by
      simp [orderViolation, firstIdx, optLt, classF_id hv, classF_elem, classF_class,
        classF_attr hv, classF_pc, classF_pe hv]
    rw [cssSelectorBuilder.«class», MyCssSelector.«class», checkOrder_of_ok _ hok, map_ok]
    rfl
  have hviol : orderViolation (["." ++ v] ++ [w]) = true := by
    simp [orderViolation, firstIdx, optLt, classF_id hv, classF_elem, classF_class,
      classF_attr hv, classF_pc, classF_pe hv, elemF_id hw, elemF_elem hw,
      elemF_class hw, elemF_attr hw, elemF_pc hw, elemF_pe hw]
  rw [e1, bind_ok, MyCssSelector.element, if_neg (by simp [classF_elem]),
    checkOrder_of_violation _ hviol, map_error]

/-- Witness for C9 at the identifier values of the claim. -/
theorem class_before_element_orderError_example :
    (cssSelectorBuilder.«class» ("x") >>= fun b => b.element ("a")) =
      Except.error orderErrorMsg :=
  class_before_element_orderError ("x") ("a") (by decide) (by decide)

/-- Witness for C10 at concrete operands. -/
theorem combine_consumes_left_operand_example :
    (((MyCssSelector.mk [] []).combine (MyCssSelector.mk ["div"] []) ("+")
      (MyCssSelector.mk [] [])).2.1).stringify.1 = ("") :=
  (combine_consumes_left_operand (MyCssSelector.mk [] [])
    (MyCssSelector.mk ["div"] []) (MyCssSelector.mk [] []) ("+")
    (by decide) rfl).1

end CoreJs101
